import Mathlib

/-!
Verification of the FirstWaveAI emergency-dispatcher pipeline
(`backend/agents/graph.py`) via a shallow embedding in Lean 4.

Python JSON values are modelled by the inductive `Json`; Python's
`json.loads` (an external standard-library parser) is abstracted as a
function `String → Option Json` (`none` standing for a raised
`json.JSONDecodeError`).  Exceptions raised by stage bodies are modelled
with `Except PyExc`; the decorator `with_error_handling` turns those
into total functions, exactly as in the source.
-/

/-- Python JSON value (as produced by `json.loads`).  Numbers are
modelled as rationals, which represent every literal appearing in the
repository exactly. -/
inductive Json where
  | null : Json
  | bool : Bool → Json
  | num : ℚ → Json
  | str : String → Json
  | arr : List Json → Json
  | obj : List (String × Json) → Json

namespace Json

/-- Python truthiness (`bool(v)`) of a JSON value. -/
def truthy : Json → Bool
  | .null => false
  | .bool b => b
  | .num q => q ≠ 0
  | .str s => s ≠ ""
  | .arr xs => !xs.isEmpty
  | .obj kvs => !kvs.isEmpty

/-- `d.get(k)` on an association list backing a JSON object:
the first binding of the key, if any. -/
def lookup (kvs : List (String × Json)) (k : String) : Option Json :=
  (kvs.find? (fun p => p.1 = k)).map (·.2)

/-- Python `d.get(k, default)` for a JSON object. -/
def getD (j : Json) (k : String) (d : Json) : Json :=
  match j with
  | .obj kvs => (lookup kvs k).getD d
  | _ => d

/-- Whether the value is a JSON object (a Python `dict`). -/
def isObj : Json → Bool
  | .obj _ => true
  | _ => false

/-- Python `v == s` where `s` is a string literal: true exactly when `v`
is an equal string (Python equality across types is `False`). -/
def eqStr : Json → String → Bool
  | .str t, s => t = s
  | _, _ => false

end Json

/-- Abstraction of Python's standard-library `json.loads`: it either
returns a JSON value or raises `json.JSONDecodeError`, modelled as
`none`.  The repository does not implement JSON grammar itself, so the
parser is a parameter of the development. -/
structure JsonLib where
  loads : String → Option Json

/-- Whitespace characters removed by Python's `str.strip()`. -/
def isPySpace (c : Char) : Bool :=
  c = ' ' || c = '\t' || c = '\n' || c = '\r' || c = '\x0b' || c = '\x0c'

/-- Python `str.strip()`: drop whitespace from both ends. -/
def pstrip (s : String) : String :=
  ⟨((s.data.dropWhile isPySpace).reverse.dropWhile isPySpace).reverse⟩

/-- Python `s.find(c)`: index of the first occurrence, `none` for `-1`. -/
def pyFind (s : String) (c : Char) : Option ℕ :=
  s.data.findIdx? (· = c)

/-- Python `s.rfind(c)`: index of the last occurrence, `none` for `-1`. -/
def pyRfind (s : String) (c : Char) : Option ℕ :=
  match (s.data.reverse.findIdx? (· = c)) with
  | some i => some (s.data.length - 1 - i)
  | none => none

/-- Python `s[start:stop]` by character index (`stop` exclusive). -/
def pySlice (s : String) (start stop : ℕ) : String :=
  ⟨(s.data.drop start).take (stop - start)⟩

/-- Python `str.lower()` (ASCII suffices for the strings involved). -/
def pyLower (s : String) : String := ⟨s.data.map Char.toLower⟩

/-- Python `str.upper()` (ASCII suffices for the strings involved). -/
def pyUpper (s : String) : String := ⟨s.data.map Char.toUpper⟩

/-- Exceptions that stage bodies can raise, following the `except`
clauses of `with_error_handling` (graph.py:66-85): `json.JSONDecodeError`,
`ValueError`, `ConnectionError`, and everything else. -/
inductive PyExc where
  | jsonDecode : String → PyExc
  | valueErr : String → PyExc
  | connErr : String → PyExc
  | other : String → PyExc
  deriving DecidableEq, Repr

/-- The class-identifying label each `except` clause of
`with_error_handling` puts in front of the exception text. -/
def classLabel : PyExc → String
  | .jsonDecode _ => "JSON parsing error"
  | .valueErr _ => "Configuration error"
  | .connErr _ => "Connection error"
  | .other _ => "Unexpected error"

/-- The `_error` marker text built by `with_error_handling`
(graph.py:71,75,79,85): class label, colon, `str(e)`. -/
def describe : PyExc → String
  | .jsonDecode m => "JSON parsing error: " ++ m
  | .valueErr m => "Configuration error: " ++ m
  | .connErr m => "Connection error: " ++ m
  | .other m => "Unexpected error: " ++ m

/-- `safe_json_parse` (graph.py:90-117): strip, try a direct parse,
then try the substring from the first `{` to the last `}` when that
span is non-degenerate, else report no structured result (`none`).
The function is total: no failure of `loads` escapes it. -/
def safe_json_parse (L : JsonLib) (content : String) : Option Json :=
  let content := pstrip content
  match L.loads content with
  | some j => some j
  | none =>
    match pyFind content '{', pyRfind content '}' with
    | some start, some stop =>
      if start < stop then L.loads (pySlice content start (stop + 1))
      else none
    | _, _ => none

/-- The Shared Run State (`DispatcherState`, graph.py:143-175).  Each
field is `Option Json`: `none` means the key is absent from the
langgraph state, `some v` that it is present with value `v` (possibly
`Json.null`, Python `None`).  The `messages` reducer channel and the
`evaluation_report` field of the off-flow after-action evaluator are
never written by the main flow and are not needed by any claim. -/
structure DispatcherState where
  transcript : String
  extracted : Option Json := none
  incident_type : Option Json := none
  severity : Option Json := none
  key_risks : Option Json := none
  missing_info : Option Json := none
  suggested_questions : Option Json := none
  info_complete : Option Json := none
  dispatch_recommendation : Option Json := none
  nearest_resources : Option Json := none
  validated_output : Option Json := none
  err : Option String := none

/-- A stage's returned dictionary: the keys it writes (`some`) and the
keys it leaves untouched (`none`), plus the `_error` diagnostic marker
added by the error guard. -/
structure Update where
  extracted : Option Json := none
  incident_type : Option Json := none
  severity : Option Json := none
  key_risks : Option Json := none
  missing_info : Option Json := none
  suggested_questions : Option Json := none
  info_complete : Option Json := none
  dispatch_recommendation : Option Json := none
  nearest_resources : Option Json := none
  validated_output : Option Json := none
  err : Option String := none

/-- Channel update: a key written by the stage replaces the old value,
an unwritten key keeps it (langgraph last-value merge). -/
def updField {α : Type} : Option α → Option α → Option α
  | some v, _ => some v
  | none, old => old

/-- Merge a stage's returned dictionary into the Shared Run State. -/
def mergeState (st : DispatcherState) (u : Update) : DispatcherState where
  transcript := st.transcript
  extracted := updField u.extracted st.extracted
  incident_type := updField u.incident_type st.incident_type
  severity := updField u.severity st.severity
  key_risks := updField u.key_risks st.key_risks
  missing_info := updField u.missing_info st.missing_info
  suggested_questions := updField u.suggested_questions st.suggested_questions
  info_complete := updField u.info_complete st.info_complete
  dispatch_recommendation := updField u.dispatch_recommendation st.dispatch_recommendation
  nearest_resources := updField u.nearest_resources st.nearest_resources
  validated_output := updField u.validated_output st.validated_output
  err := updField u.err st.err

/-- `with_error_handling` (graph.py:48-87): run the wrapped stage body;
if it raised, return the stage's declared default with the `_error`
marker attached; otherwise return its result unchanged.  (The Python
`default_return` is a constant dict or a zero-argument callable, so it
is a plain value here.)  The wrapper is total: no exception escapes. -/
def with_error_handling (default_return : Update)
    (func : DispatcherState → Except PyExc Update)
    (st : DispatcherState) : Update :=
  match func st with
  | .ok u => u
  | .error e => { default_return with err := some (describe e) }

/-- Deterministic stand-in for the environment and the external
text-generation service: the `GROQ_API_KEY` value visible to
`get_model`, and per-stage outcomes of `model.invoke` (either the
response text or a raised exception). -/
structure Oracle where
  groq_api_key : Option String
  extraction : Except PyExc String
  triage : Except PyExc String
  next_question : Except PyExc String
  dispatch_planner : Except PyExc String
  safety_guardrail : Except PyExc String

/-- `get_model` (graph.py:124-136): raises `ValueError` when the
`GROQ_API_KEY` environment value is missing or empty. -/
def get_model (o : Oracle) : Except PyExc Unit :=
  match o.groq_api_key with
  | some k =>
    if k = "" then
      .error (.valueErr "GROQ_API_KEY not found. Please set it in backend/.env")
    else .ok ()
  | none => .error (.valueErr "GROQ_API_KEY not found. Please set it in backend/.env")

/-- Whether Python `len(v)` works on the value (str, list, dict). -/
def hasLen : Json → Bool
  | .arr _ => true
  | .str _ => true
  | .obj _ => true
  | _ => false

/-- Whether Python `", ".join(v)` succeeds: an iterable whose elements
are strings — a list of strings, a string (iterates characters), or a
dict (iterates its string keys). -/
def joinOk : Json → Bool
  | .arr xs => xs.all (fun j => match j with | .str _ => true | _ => false)
  | .str _ => true
  | .obj _ => true
  | _ => false

/-- Python `d.get(k) is not None` for an association-list object. -/
def isNotNull : Option Json → Bool
  | some .null => false
  | none => false
  | some _ => true

/-- Default for the extraction stage (graph.py:182-190). -/
def extraction_default : Update :=
  { extracted := some (.obj [("location", .null), ("injuries", .null),
      ("hazards", .null), ("people_count", .null), ("caller_info", .null)]) }

/-- `extraction_agent` body (graph.py:191-233): call the model, parse,
fall back to a raw-response dict when no JSON was found; reading
`extracted.keys()` for the log line requires a dict. -/
def extraction_body (L : JsonLib) (o : Oracle) (_ : DispatcherState) :
    Except PyExc Update := do
  let _ ← get_model o
  let content ← o.extraction
  match safe_json_parse L content with
  | none => .ok { extracted := some (.obj [("raw_response", .str (content.take 500))]) }
  | some (.obj kvs) => .ok { extracted := some (.obj kvs) }
  | some _ => .error (.other "AttributeError: object has no attribute keys")

/-- Default for the triage stage (graph.py:236-240). -/
def triage_default : Update :=
  { incident_type := some (.str "unknown - processing error"),
    severity := some (.str "P2"),
    key_risks := some (.arr [.str "Unable to complete triage - manual review recommended"]) }

/-- `triage_agent` body (graph.py:241-290). -/
def triage_body (L : JsonLib) (o : Oracle) (_ : DispatcherState) :
    Except PyExc Update := do
  let _ ← get_model o
  let content ← o.triage
  match safe_json_parse L content with
  | none =>
    .ok { incident_type := some (.str "unknown"),
          severity := some (.str "P2"),
          key_risks := some (.arr [.str "Unable to parse triage response"]) }
  | some (.obj kvs) =>
    .ok { incident_type := some ((Json.lookup kvs "incident_type").getD (.str "unknown")),
          severity := some ((Json.lookup kvs "severity").getD .null),
          key_risks := some ((Json.lookup kvs "key_risks").getD (.arr [])) }
  | some _ => .error (.other "AttributeError: object has no attribute get")

/-- Default for the next-question stage (graph.py:293-297). -/
def next_question_default : Update :=
  { missing_info := some (.arr [.str "Unable to analyze - manual review needed"]),
    suggested_questions := some (.arr [.str "Can you confirm your exact location?",
      .str "Is anyone injured?", .str "Are you in a safe place?"]),
    info_complete := some (.bool false) }

/-- `next_question_agent` body (graph.py:298-388); the log line takes
`len(result.get('missing_info', []))`, which needs a sized value. -/
def next_question_body (L : JsonLib) (o : Oracle) (_ : DispatcherState) :
    Except PyExc Update := do
  let _ ← get_model o
  let content ← o.next_question
  match safe_json_parse L content with
  | none =>
    .ok { missing_info := some (.arr [.str "Unable to analyze"]),
          suggested_questions := some (.arr [.str "Can you confirm your exact location?"]),
          info_complete := some (.bool false) }
  | some (.obj kvs) =>
    let mi := (Json.lookup kvs "missing_info").getD (.arr [])
    if hasLen mi then
      .ok { missing_info := some mi,
            suggested_questions := some ((Json.lookup kvs "suggested_questions").getD (.arr [])),
            info_complete := some ((Json.lookup kvs "info_complete").getD (.bool false)) }
    else .error (.other "TypeError: object of this type has no len")
  | some _ => .error (.other "AttributeError: object has no attribute get")

/-- `_get_default_dispatch` (graph.py:391-400): the in-body fallback of
the dispatch planner; its priority echoes the current severity. -/
def get_default_dispatch (st : DispatcherState) : Update :=
  { dispatch_recommendation := some (.obj [
      ("resources", .obj [("ems", .str "yes"), ("fire", .str "no"), ("police", .str "no")]),
      ("priority", (st.severity).getD (.str "P2")),
      ("rationale", .str "Default dispatch - manual review recommended"),
      ("special_units", .arr [])]) }

/-- Default for the dispatch planner (graph.py:403-410). -/
def dispatch_planner_default : Update :=
  { dispatch_recommendation := some (.obj [
      ("resources", .obj [("ems", .str "yes"), ("fire", .str "no"), ("police", .str "no")]),
      ("priority", .str "P2"),
      ("rationale", .str "Default dispatch due to processing error"),
      ("special_units", .arr [])]) }

/-- `dispatch_planner_agent` body (graph.py:411-451).  Building the
prompt context joins `state.get('key_risks', [])`, which raises
`TypeError` for non-string elements; the log line reads
`result.get('resources')`, which needs a dict. -/
def dispatch_planner_body (L : JsonLib) (o : Oracle) (st : DispatcherState) :
    Except PyExc Update := do
  let _ ← get_model o
  if !joinOk ((st.key_risks).getD (.arr [])) then
    .error (.other "TypeError: sequence item expected str instance")
  else do
    let content ← o.dispatch_planner
    match safe_json_parse L content with
    | none => .ok (get_default_dispatch st)
    | some (.obj kvs) => .ok { dispatch_recommendation := some (.obj kvs) }
    | some _ => .error (.other "AttributeError: object has no attribute get")

/-- One record of the fixed resource table (graph.py:472-485). -/
structure ResourceRec where
  name : String
  station : String
  distance_miles : ℚ
  eta_minutes : ℚ
  deriving DecidableEq, Repr

/-- The static `resource_database` (graph.py:472-485). -/
def resource_database : List (String × List ResourceRec) :=
  [("ems", [⟨"Medic Unit 7", "Station 7", 6/5, 4⟩,
            ⟨"Ambulance 12", "Central Hospital", 5/2, 7⟩]),
   ("fire", [⟨"Engine 3", "Fire Station 3", 4/5, 3⟩,
             ⟨"Ladder 1", "Fire Station 1", 3/2, 5⟩]),
   ("police", [⟨"Unit 42", "Patrol Zone 4", 1/2, 2⟩,
               ⟨"Unit 17", "Patrol Zone 1", 9/5, 6⟩])]

/-- `resource_database[key]` guarded by the `in` check (graph.py:493). -/
def dbLookup (k : String) : Option (List ResourceRec) :=
  (resource_database.find? (fun p => p.1 == k)).map (·.2)

/-- The entry dict appended per located resource (graph.py:497-504). -/
def mkEntry (rtype : String) (r : ResourceRec) (loc : Json) : Json :=
  .obj [("type", .str (pyUpper rtype)), ("unit", .str r.name),
        ("station", .str r.station), ("eta_minutes", .num r.eta_minutes),
        ("distance_miles", .num r.distance_miles), ("destination", loc)]

/-- The dict-shaped wish-list loop (graph.py:491-504): for each
category mapped to `"yes"` whose lowercased name is in the table, emit
the first record. -/
def locateFromDict : List (String × Json) → Json → List Json
  | [], _ => []
  | (rtype, needed) :: rest, loc =>
    (if needed.eqStr "yes" then
      match dbLookup (pyLower rtype) with
      | some (r :: _) => [mkEntry rtype r loc]
      | _ => []
    else []) ++ locateFromDict rest loc

/-- The list-shaped wish-list loop (graph.py:505-518): every element is
lowercased (`AttributeError` for non-strings) and looked up. -/
def locateFromList : List Json → Json → Except PyExc (List Json)
  | [], _ => .ok []
  | .str rtype :: rest, loc => do
    let tail ← locateFromList rest loc
    match dbLookup (pyLower rtype) with
    | some (r :: _) => .ok (mkEntry rtype r loc :: tail)
    | _ => .ok tail
  | _ :: _, _ => .error (.other "AttributeError: object has no attribute lower")

/-- The shape dispatch of graph.py:491-519: a dict wish-list walks the
`.items()` loop, a list wish-list walks the element loop, and any other
shape leaves `nearest_resources` empty. -/
def locateResources (resources_needed location : Json) : Except PyExc (List Json) :=
  match resources_needed with
  | .obj kvs => .ok (locateFromDict kvs location)
  | .arr items => locateFromList items location
  | _ => .ok []

/-- Default for the resource locator (graph.py:454). -/
def resource_locator_default : Update := { nearest_resources := some (.arr []) }

/-- `resource_locator_agent` body (graph.py:455-521): pure, no external
call.  Reads the wish-list from `dispatch_recommendation.resources` and
the destination from `extracted.location` (sentinel when the key is
absent); a wish-list of any other shape yields no resources. -/
def resource_locator_body (st : DispatcherState) : Except PyExc Update := do
  let dispatch_rec := (st.dispatch_recommendation).getD (.obj [])
  let resources_needed ←
    match dispatch_rec with
    | .obj kvs => Except.ok ((Json.lookup kvs "resources").getD (.obj []))
    | _ => Except.error (.other "AttributeError: object has no attribute get")
  let location ←
    match (st.extracted).getD (.obj []) with
    | .obj kvs => Except.ok ((Json.lookup kvs "location").getD (.str "Unknown location"))
    | _ => Except.error (.other "AttributeError: object has no attribute get")
  let entries ← locateResources resources_needed location
  .ok { nearest_resources := some (.arr entries) }

/-- Default for the safety guardrail (graph.py:524-532). -/
def safety_guardrail_default : Update :=
  { validated_output := some (.obj [
      ("is_valid", .bool true),
      ("sanitized_recommendation", .obj []),
      ("flags", .arr [.str "Safety guardrail processing error - manual review required"]),
      ("blocked", .bool false),
      ("block_reason", .null)]) }

/-- `safety_guardrail_agent` body (graph.py:533-598): parse failure
passes the current recommendation through unblocked with a manual-review
flag; the prompt context joins `key_risks`, and the log line takes
`len(result.get('flags', []))`. -/
def safety_guardrail_body (L : JsonLib) (o : Oracle) (st : DispatcherState) :
    Except PyExc Update := do
  let _ ← get_model o
  if !joinOk ((st.key_risks).getD (.arr [])) then
    .error (.other "TypeError: sequence item expected str instance")
  else do
    let content ← o.safety_guardrail
    match safe_json_parse L content with
    | none =>
      .ok { validated_output := some (.obj [
          ("is_valid", .bool true),
          ("sanitized_recommendation", (st.dispatch_recommendation).getD (.obj [])),
          ("flags", .arr [.str "Guardrail parsing failed - review manually"]),
          ("blocked", .bool false),
          ("block_reason", .null)]) }
    | some (.obj kvs) =>
      if hasLen ((Json.lookup kvs "flags").getD (.arr [])) then
        .ok { validated_output := some (.obj kvs) }
      else .error (.other "TypeError: object of this type has no len")
    | some _ => .error (.other "AttributeError: object has no attribute get")

/-- The guarded extraction stage. -/
def extraction_agent (L : JsonLib) (o : Oracle) : DispatcherState → Update :=
  with_error_handling extraction_default (extraction_body L o)

/-- The guarded triage stage. -/
def triage_agent (L : JsonLib) (o : Oracle) : DispatcherState → Update :=
  with_error_handling triage_default (triage_body L o)

/-- The guarded next-question stage. -/
def next_question_agent (L : JsonLib) (o : Oracle) : DispatcherState → Update :=
  with_error_handling next_question_default (next_question_body L o)

/-- The guarded dispatch-planner stage. -/
def dispatch_planner_agent (L : JsonLib) (o : Oracle) : DispatcherState → Update :=
  with_error_handling dispatch_planner_default (dispatch_planner_body L o)

/-- The guarded resource-locator stage. -/
def resource_locator_agent : DispatcherState → Update :=
  with_error_handling resource_locator_default resource_locator_body

/-- The guarded safety-guardrail stage. -/
def safety_guardrail_agent (L : JsonLib) (o : Oracle) : DispatcherState → Update :=
  with_error_handling safety_guardrail_default (safety_guardrail_body L o)

/-- `should_dispatch` (graph.py:701-729): dispatch when `info_complete`
is truthy, or when `extracted.location` is non-null and `incident_type`
is truthy and differs from `"unknown"`; otherwise wait.  Reading
`extracted.get("location")` on a present non-dict value raises (the
routing function is not wrapped by the error guard). -/
def should_dispatch (st : DispatcherState) : Except PyExc String :=
  let info_complete := (st.info_complete).getD (.bool false)
  if info_complete.truthy then .ok "dispatch_planner"
  else
    match (st.extracted).getD (.obj []) with
    | .obj kvs =>
      let has_location := isNotNull (Json.lookup kvs "location")
      let incident_type := (st.incident_type).getD (.str "unknown")
      let has_incident := incident_type.truthy && !(incident_type.eqStr "unknown")
      if has_location && has_incident then .ok "dispatch_planner"
      else .ok "wait_for_info"
    | _ => .error (.other "AttributeError: object has no attribute get")

/-- `wait_for_info_node` (graph.py:732-755): the non-dispatch terminal
stage's sentinel output. -/
def wait_for_info_node (_ : DispatcherState) : Update :=
  { dispatch_recommendation := some (.obj [
      ("status", .str "pending_info"),
      ("resources", .obj [("ems", .str "no"), ("fire", .str "no"), ("police", .str "no")]),
      ("priority", .null),
      ("rationale", .str "Waiting for more information before making dispatch recommendation"),
      ("special_units", .arr []),
      ("needs_more_info", .bool true)]),
    nearest_resources := some (.arr []),
    validated_output := some (.obj [
      ("is_valid", .bool false),
      ("status", .str "pending_info"),
      ("message", .str "More information needed before dispatch recommendation"),
      ("blocked", .bool false)]) }

/-- The run state the boundary passes to `dispatcher_graph.invoke`
(main.py:250): only the transcript is populated. -/
def initState (t : String) : DispatcherState := { transcript := t }

/-- The per-stage outputs and merged states of the linear head of the
graph (`START → extraction → triage → next_question`, graph.py:775-777),
written out stage by stage. -/
def runUpd1 (L : JsonLib) (o : Oracle) (t : String) : Update :=
  extraction_agent L o (initState t)

/-- State after the extraction stage's update is merged. -/
def runState1 (L : JsonLib) (o : Oracle) (t : String) : DispatcherState :=
  mergeState (initState t) (runUpd1 L o t)

/-- The triage stage's output against the post-extraction state. -/
def runUpd2 (L : JsonLib) (o : Oracle) (t : String) : Update :=
  triage_agent L o (runState1 L o t)

/-- State after the triage stage's update is merged. -/
def runState2 (L : JsonLib) (o : Oracle) (t : String) : DispatcherState :=
  mergeState (runState1 L o t) (runUpd2 L o t)

/-- The next-question stage's output against the post-triage state. -/
def runUpd3 (L : JsonLib) (o : Oracle) (t : String) : Update :=
  next_question_agent L o (runState2 L o t)

/-- State presented to the `should_dispatch` branch (graph.py:780-787). -/
def runState3 (L : JsonLib) (o : Oracle) (t : String) : DispatcherState :=
  mergeState (runState2 L o t) (runUpd3 L o t)

/-- Dispatch branch (graph.py:790-792): planner output. -/
def runUpd4 (L : JsonLib) (o : Oracle) (t : String) : Update :=
  dispatch_planner_agent L o (runState3 L o t)

/-- State after the dispatch planner. -/
def runState4 (L : JsonLib) (o : Oracle) (t : String) : DispatcherState :=
  mergeState (runState3 L o t) (runUpd4 L o t)

/-- Dispatch branch: resource-locator output. -/
def runUpd5 (L : JsonLib) (o : Oracle) (t : String) : Update :=
  resource_locator_agent (runState4 L o t)

/-- State after the resource locator. -/
def runState5 (L : JsonLib) (o : Oracle) (t : String) : DispatcherState :=
  mergeState (runState4 L o t) (runUpd5 L o t)

/-- Dispatch branch: safety-guardrail output (terminal). -/
def runUpd6 (L : JsonLib) (o : Oracle) (t : String) : Update :=
  safety_guardrail_agent L o (runState5 L o t)

/-- Final state on the dispatch branch. -/
def runState6 (L : JsonLib) (o : Oracle) (t : String) : DispatcherState :=
  mergeState (runState5 L o t) (runUpd6 L o t)

/-- Wait branch (graph.py:795): the wait-for-info stage's output. -/
def runUpdW (L : JsonLib) (o : Oracle) (t : String) : Update :=
  wait_for_info_node (runState3 L o t)

/-- Final state on the wait-for-info branch. -/
def runStateW (L : JsonLib) (o : Oracle) (t : String) : DispatcherState :=
  mergeState (runState3 L o t) (runUpdW L o t)

/-- A synchronous run of the compiled graph built by
`build_dispatcher_graph` (graph.py:758-804): extraction → triage →
next-question, then the `should_dispatch` branch into either the
dispatch chain (planner → locator → guardrail) or the wait-for-info
terminal.  Returns the final merged state and the per-stage outputs in
execution order; an exception raised outside every guarded stage (only
possible in the routing function) aborts the run. -/
def runPipeline (L : JsonLib) (o : Oracle) (t : String) :
    Except PyExc (DispatcherState × List (String × Update)) :=
  match should_dispatch (runState3 L o t) with
  | .error e => .error e
  | .ok route =>
    if route = "dispatch_planner" then
      .ok (runState6 L o t,
           [("extraction", runUpd1 L o t), ("triage", runUpd2 L o t),
            ("next_question", runUpd3 L o t), ("dispatch_planner", runUpd4 L o t),
            ("resource_locator", runUpd5 L o t), ("safety_guardrail", runUpd6 L o t)])
    else
      .ok (runStateW L o t,
           [("extraction", runUpd1 L o t), ("triage", runUpd2 L o t),
            ("next_question", runUpd3 L o t), ("wait_for_info", runUpdW L o t)])

theorem updField_some {α : Type} (v : α) (b : Option α) : updField (some v) b = some v := rfl

theorem updField_none {α : Type} (b : Option α) : updField (none : Option α) b = b := rfl

theorem updField_isSome_right {α : Type} (a b : Option α) (h : b.isSome) :
    (updField a b).isSome := by
  cases a with
  | some v => rfl
  | none => exact h

theorem updField_isSome_left {α : Type} (a b : Option α) (h : a.isSome) :
    (updField a b).isSome := by
  cases a with
  | some v => rfl
  | none => simp at h

/-- Case analysis of the extraction body: it raises, or returns an
update whose `extracted` is a dict and which carries no marker. -/
theorem extraction_body_spec (L : JsonLib) (o : Oracle) (st : DispatcherState) :
    (∃ e, extraction_body L o st = .error e) ∨
    (∃ kvs, extraction_body L o st = .ok { extracted := some (.obj kvs) }) := by
  unfold extraction_body
  cases hg : get_model o with
  | error e => exact .inl ⟨e, rfl⟩
  | ok _ =>
    cases hc : o.extraction with
    | error e => exact .inl ⟨e, rfl⟩
    | ok content =>
      simp only [Bind.bind, Except.bind]
      cases hp : safe_json_parse L content with
      | none => exact .inr ⟨_, rfl⟩
      | some j =>
        cases j with
        | obj kvs => exact .inr ⟨kvs, rfl⟩
        | null => exact .inl ⟨_, rfl⟩
        | bool b => exact .inl ⟨_, rfl⟩
        | num q => exact .inl ⟨_, rfl⟩
        | str s => exact .inl ⟨_, rfl⟩
        | arr xs => exact .inl ⟨_, rfl⟩

/-- The guarded extraction stage always writes a dict `extracted`. -/
theorem extraction_agent_spec (L : JsonLib) (o : Oracle) (st : DispatcherState) :
    ∃ kvs, (extraction_agent L o st).extracted = some (.obj kvs) := by
  unfold extraction_agent with_error_handling
  rcases extraction_body_spec L o st with ⟨e, h⟩ | ⟨kvs, h⟩ <;> rw [h]
  · exact ⟨_, rfl⟩
  · exact ⟨kvs, rfl⟩

/-- Case analysis of the triage body: it raises, or returns a marker-free
update that writes exactly the three triage fields. -/
theorem triage_body_spec (L : JsonLib) (o : Oracle) (st : DispatcherState) :
    (∃ e, triage_body L o st = .error e) ∨
    (∃ u, triage_body L o st = .ok u ∧ u.extracted = none ∧ u.err = none ∧
      u.incident_type.isSome ∧ u.severity.isSome ∧ u.key_risks.isSome) := by
  unfold triage_body
  cases hg : get_model o with
  | error e => exact .inl ⟨e, rfl⟩
  | ok _ =>
    cases hc : o.triage with
    | error e => exact .inl ⟨e, rfl⟩
    | ok content =>
      simp only [Bind.bind, Except.bind]
      cases hp : safe_json_parse L content with
      | none => exact .inr ⟨_, rfl, rfl, rfl, rfl, rfl, rfl⟩
      | some j =>
        cases j with
        | obj kvs => exact .inr ⟨_, rfl, rfl, rfl, rfl, rfl, rfl⟩
        | null => exact .inl ⟨_, rfl⟩
        | bool b => exact .inl ⟨_, rfl⟩
        | num q => exact .inl ⟨_, rfl⟩
        | str s => exact .inl ⟨_, rfl⟩
        | arr xs => exact .inl ⟨_, rfl⟩

/-- Case analysis of the next-question body. -/
theorem next_question_body_spec (L : JsonLib) (o : Oracle) (st : DispatcherState) :
    (∃ e, next_question_body L o st = .error e) ∨
    (∃ u, next_question_body L o st = .ok u ∧ u.extracted = none ∧ u.err = none ∧
      u.missing_info.isSome ∧ u.suggested_questions.isSome ∧ u.info_complete.isSome) := by
  unfold next_question_body
  cases hg : get_model o with
  | error e => exact .inl ⟨e, rfl⟩
  | ok _ =>
    cases hc : o.next_question with
    | error e => exact .inl ⟨e, rfl⟩
    | ok content =>
      simp only [Bind.bind, Except.bind]
      cases hp : safe_json_parse L content with
      | none => exact .inr ⟨_, rfl, rfl, rfl, rfl, rfl, rfl⟩
      | some j =>
        cases j with
        | obj kvs =>
          by_cases hl : hasLen ((Json.lookup kvs "missing_info").getD (.arr [])) <;>
            simp only [hl, if_true, if_false]
          · exact .inr ⟨_, rfl, rfl, rfl, rfl, rfl, rfl⟩
          · exact .inl ⟨_, rfl⟩
        | null => exact .inl ⟨_, rfl⟩
        | bool b => exact .inl ⟨_, rfl⟩
        | num q => exact .inl ⟨_, rfl⟩
        | str s => exact .inl ⟨_, rfl⟩
        | arr xs => exact .inl ⟨_, rfl⟩

/-- Case analysis of the dispatch-planner body. -/
theorem dispatch_planner_body_spec (L : JsonLib) (o : Oracle) (st : DispatcherState) :
    (∃ e, dispatch_planner_body L o st = .error e) ∨
    (∃ u, dispatch_planner_body L o st = .ok u ∧ u.extracted = none ∧ u.err = none ∧
      u.dispatch_recommendation.isSome) := by
  unfold dispatch_planner_body
  cases hg : get_model o with
  | error e => exact .inl ⟨e, rfl⟩
  | ok _ =>
    by_cases hj : joinOk ((st.key_risks).getD (.arr [])) <;>
      simp only [hj, Bool.not_true, Bool.not_false, if_true, if_false]
    · cases hc : o.dispatch_planner with
      | error e => exact .inl ⟨e, rfl⟩
      | ok content =>
        simp only [Bind.bind, Except.bind]
        cases hp : safe_json_parse L content with
        | none => exact .inr ⟨_, rfl, rfl, rfl, rfl⟩
        | some j =>
          cases j with
          | obj kvs => exact .inr ⟨_, rfl, rfl, rfl, rfl⟩
          | null => exact .inl ⟨_, rfl⟩
          | bool b => exact .inl ⟨_, rfl⟩
          | num q => exact .inl ⟨_, rfl⟩
          | str s => exact .inl ⟨_, rfl⟩
          | arr xs => exact .inl ⟨_, rfl⟩
    · exact .inl ⟨_, rfl⟩

/-- Case analysis of the resource-locator body: it raises, or returns a
marker-free update writing a list to `nearest_resources`. -/
theorem resource_locator_body_spec (st : DispatcherState) :
    (∃ e, resource_locator_body st = .error e) ∨
    (∃ u, resource_locator_body st = .ok u ∧ u.extracted = none ∧ u.err = none ∧
      ∃ xs, u.nearest_resources = some (.arr xs)) := by
  unfold resource_locator_body
  cases hd : (st.dispatch_recommendation).getD (.obj []) with
  | obj dkvs =>
    simp only [Bind.bind, Except.bind]
    cases he : (st.extracted).getD (.obj []) with
    | obj ekvs =>
      simp only [Bind.bind, Except.bind]
      cases hl : locateResources ((Json.lookup dkvs "resources").getD (.obj []))
          ((Json.lookup ekvs "location").getD (.str "Unknown location")) with
      | error e => exact .inl ⟨e, rfl⟩
      | ok entries => exact .inr ⟨_, rfl, rfl, rfl, _, rfl⟩
    | null => exact .inl ⟨_, rfl⟩
    | bool b => exact .inl ⟨_, rfl⟩
    | num q => exact .inl ⟨_, rfl⟩
    | str s => exact .inl ⟨_, rfl⟩
    | arr xs => exact .inl ⟨_, rfl⟩
  | null => exact .inl ⟨_, rfl⟩
  | bool b => exact .inl ⟨_, rfl⟩
  | num q => exact .inl ⟨_, rfl⟩
  | str s => exact .inl ⟨_, rfl⟩
  | arr xs => exact .inl ⟨_, rfl⟩

/-- Case analysis of the safety-guardrail body. -/
theorem safety_guardrail_body_spec (L : JsonLib) (o : Oracle) (st : DispatcherState) :
    (∃ e, safety_guardrail_body L o st = .error e) ∨
    (∃ u, safety_guardrail_body L o st = .ok u ∧ u.extracted = none ∧ u.err = none ∧
      u.validated_output.isSome) := by
  unfold safety_guardrail_body
  cases hg : get_model o with
  | error e => exact .inl ⟨e, rfl⟩
  | ok _ =>
    by_cases hj : joinOk ((st.key_risks).getD (.arr [])) <;>
      simp only [hj, Bool.not_true, Bool.not_false, if_true, if_false]
    · cases hc : o.safety_guardrail with
      | error e => exact .inl ⟨e, rfl⟩
      | ok content =>
        simp only [Bind.bind, Except.bind]
        cases hp : safe_json_parse L content with
        | none => exact .inr ⟨_, rfl, rfl, rfl, rfl⟩
        | some j =>
          cases j with
          | obj kvs =>
            by_cases hl : hasLen ((Json.lookup kvs "flags").getD (.arr [])) <;>
              simp only [hl, if_true, if_false]
            · exact .inr ⟨_, rfl, rfl, rfl, rfl⟩
            · exact .inl ⟨_, rfl⟩
          | null => exact .inl ⟨_, rfl⟩
          | bool b => exact .inl ⟨_, rfl⟩
          | num q => exact .inl ⟨_, rfl⟩
          | str s => exact .inl ⟨_, rfl⟩
          | arr xs => exact .inl ⟨_, rfl⟩
    · exact .inl ⟨_, rfl⟩

/-- The guarded triage stage never touches `extracted` and always
writes the three triage fields. -/
theorem triage_agent_spec (L : JsonLib) (o : Oracle) (st : DispatcherState) :
    (triage_agent L o st).extracted = none ∧ (triage_agent L o st).incident_type.isSome ∧
    (triage_agent L o st).severity.isSome ∧ (triage_agent L o st).key_risks.isSome := by
  unfold triage_agent with_error_handling
  rcases triage_body_spec L o st with ⟨e, h⟩ | ⟨u, h, h1, h2, h3, h4, h5⟩ <;> rw [h]
  · exact ⟨rfl, rfl, rfl, rfl⟩
  · exact ⟨h1, h3, h4, h5⟩

/-- The guarded next-question stage never touches `extracted` and
always writes its three fields. -/
theorem next_question_agent_spec (L : JsonLib) (o : Oracle) (st : DispatcherState) :
    (next_question_agent L o st).extracted = none ∧
    (next_question_agent L o st).missing_info.isSome ∧
    (next_question_agent L o st).suggested_questions.isSome ∧
    (next_question_agent L o st).info_complete.isSome := by
  unfold next_question_agent with_error_handling
  rcases next_question_body_spec L o st with ⟨e, h⟩ | ⟨u, h, h1, h2, h3, h4, h5⟩ <;> rw [h]
  · exact ⟨rfl, rfl, rfl, rfl⟩
  · exact ⟨h1, h3, h4, h5⟩

/-- The guarded dispatch planner always writes a recommendation. -/
theorem dispatch_planner_agent_spec (L : JsonLib) (o : Oracle) (st : DispatcherState) :
    (dispatch_planner_agent L o st).dispatch_recommendation.isSome := by
  unfold dispatch_planner_agent with_error_handling
  rcases dispatch_planner_body_spec L o st with ⟨e, h⟩ | ⟨u, h, h1, h2, h3⟩ <;> rw [h]
  · rfl
  · exact h3

/-- The guarded resource locator always writes `nearest_resources`. -/
theorem resource_locator_agent_spec (st : DispatcherState) :
    (resource_locator_agent st).nearest_resources.isSome := by
  unfold resource_locator_agent with_error_handling
  rcases resource_locator_body_spec st with ⟨e, h⟩ | ⟨u, h, h1, h2, xs, h3⟩ <;> rw [h]
  · rfl
  · rw [h3]; rfl

/-- The guarded safety guardrail always writes `validated_output`. -/
theorem safety_guardrail_agent_spec (L : JsonLib) (o : Oracle) (st : DispatcherState) :
    (safety_guardrail_agent L o st).validated_output.isSome := by
  unfold safety_guardrail_agent with_error_handling
  rcases safety_guardrail_body_spec L o st with ⟨e, h⟩ | ⟨u, h, h1, h2, h3⟩ <;> rw [h]
  · rfl
  · exact h3

/-- When the run state's `extracted` is a dict, the routing function
cannot raise and picks one of the two declared successors. -/
theorem should_dispatch_total (st : DispatcherState) (kvs : List (String × Json))
    (h : st.extracted = some (.obj kvs)) :
    should_dispatch st = .ok "dispatch_planner" ∨ should_dispatch st = .ok "wait_for_info" := by
  unfold should_dispatch
  rw [h]
  by_cases hic : ((st.info_complete).getD (Json.bool false)).truthy
  · rw [if_pos hic]; exact .inl rfl
  · rw [if_neg hic]
    simp only [Option.getD_some]
    by_cases hl : (isNotNull (Json.lookup kvs "location") &&
        (((st.incident_type).getD (Json.str "unknown")).truthy &&
          !((st.incident_type).getD (Json.str "unknown")).eqStr "unknown"))
    · rw [if_pos hl]; exact .inl rfl
    · rw [if_neg hl]; exact .inr rfl

/-- The branch state's `extracted` is always the dict written by the
extraction stage: triage and next-question never touch it. -/
theorem runState3_extracted (L : JsonLib) (o : Oracle) (t : String) :
    ∃ kvs, (runState3 L o t).extracted = some (.obj kvs) := by
  obtain ⟨kvs, h1⟩ := extraction_agent_spec L o (initState t)
  refine ⟨kvs, ?_⟩
  show updField (next_question_agent L o (runState2 L o t)).extracted
    (runState2 L o t).extracted = _
  rw [(next_question_agent_spec L o (runState2 L o t)).1, updField_none]
  show updField (triage_agent L o (runState1 L o t)).extracted
    (runState1 L o t).extracted = _
  rw [(triage_agent_spec L o (runState1 L o t)).1, updField_none]
  show updField (extraction_agent L o (initState t)).extracted
    (initState t).extracted = _
  rw [h1, updField_some]

/-- Every run reaches a terminal stage (the routing function never
raises, since `extracted` is always a dict) following one of the two
declared stage orders, and every state field owned by an executed stage
is present in the final state. -/
theorem runPipeline_ok (L : JsonLib) (o : Oracle) (t : String) :
    ∃ fin trace, runPipeline L o t = .ok (fin, trace) ∧
      (trace.map Prod.fst = ["extraction", "triage", "next_question",
          "dispatch_planner", "resource_locator", "safety_guardrail"] ∨
        trace.map Prod.fst = ["extraction", "triage", "next_question", "wait_for_info"]) ∧
      fin.extracted.isSome ∧ fin.incident_type.isSome ∧ fin.severity.isSome ∧
      fin.key_risks.isSome ∧ fin.missing_info.isSome ∧ fin.suggested_questions.isSome ∧
      fin.info_complete.isSome ∧ fin.dispatch_recommendation.isSome ∧
      fin.nearest_resources.isSome ∧ fin.validated_output.isSome := by
  obtain ⟨kvs, hext⟩ := runState3_extracted L o t
  have hx3 : (runState3 L o t).extracted.isSome := by rw [hext]; rfl
  obtain ⟨-, hi2, hs2, hk2⟩ := triage_agent_spec L o (runState1 L o t)
  obtain ⟨-, hm3, hq3, hc3⟩ := next_question_agent_spec L o (runState2 L o t)
  have h3i : (runState3 L o t).incident_type.isSome :=
    updField_isSome_right _ _ (updField_isSome_left _ _ hi2)
  have h3s : (runState3 L o t).severity.isSome :=
    updField_isSome_right _ _ (updField_isSome_left _ _ hs2)
  have h3k : (runState3 L o t).key_risks.isSome :=
    updField_isSome_right _ _ (updField_isSome_left _ _ hk2)
  have h3m : (runState3 L o t).missing_info.isSome := updField_isSome_left _ _ hm3
  have h3q : (runState3 L o t).suggested_questions.isSome := updField_isSome_left _ _ hq3
  have h3c : (runState3 L o t).info_complete.isSome := updField_isSome_left _ _ hc3
  rcases should_dispatch_total (runState3 L o t) kvs hext with hr | hr
  · refine ⟨runState6 L o t,
      [("extraction", runUpd1 L o t), ("triage", runUpd2 L o t),
       ("next_question", runUpd3 L o t), ("dispatch_planner", runUpd4 L o t),
       ("resource_locator", runUpd5 L o t), ("safety_guardrail", runUpd6 L o t)],
      ?_, .inl rfl, ?_, ?_, ?_, ?_, ?_, ?_, ?_, ?_, ?_, ?_⟩
    · unfold runPipeline
      rw [hr]
      dsimp only
      rw [if_pos rfl]
    · exact updField_isSome_right _ _ (updField_isSome_right _ _ (updField_isSome_right _ _ hx3))
    · exact updField_isSome_right _ _ (updField_isSome_right _ _ (updField_isSome_right _ _ h3i))
    · exact updField_isSome_right _ _ (updField_isSome_right _ _ (updField_isSome_right _ _ h3s))
    · exact updField_isSome_right _ _ (updField_isSome_right _ _ (updField_isSome_right _ _ h3k))
    · exact updField_isSome_right _ _ (updField_isSome_right _ _ (updField_isSome_right _ _ h3m))
    · exact updField_isSome_right _ _ (updField_isSome_right _ _ (updField_isSome_right _ _ h3q))
    · exact updField_isSome_right _ _ (updField_isSome_right _ _ (updField_isSome_right _ _ h3c))
    · exact updField_isSome_right _ _ (updField_isSome_right _ _
        (updField_isSome_left _ _ (dispatch_planner_agent_spec L o (runState3 L o t))))
    · exact updField_isSome_right _ _
        (updField_isSome_left _ _ (resource_locator_agent_spec (runState4 L o t)))
    · exact updField_isSome_left _ _ (safety_guardrail_agent_spec L o (runState5 L o t))
  · refine ⟨runStateW L o t,
      [("extraction", runUpd1 L o t), ("triage", runUpd2 L o t),
       ("next_question", runUpd3 L o t), ("wait_for_info", runUpdW L o t)],
      ?_, .inr rfl, ?_, ?_, ?_, ?_, ?_, ?_, ?_, ?_, ?_, ?_⟩
    · unfold runPipeline
      rw [hr]
      dsimp only
      rw [if_neg (by decide : ¬("wait_for_info" : String) = "dispatch_planner")]
    · exact hx3
    · exact h3i
    · exact h3s
    · exact h3k
    · exact h3m
    · exact h3q
    · exact h3c
    · rfl
    · rfl
    · rfl

/-- Shared routing fact: whenever `info_complete` is falsy and
`extracted.location` is null or absent, the branch picks the
wait-for-info successor — the state's `severity` and `incident_type`
are irrelevant because the conjunct `has_location` is already false. -/
theorem route_wait_of_no_info (st : DispatcherState)
    (hic : ((st.info_complete).getD (.bool false)).truthy = false)
    (hloc : st.extracted = none ∨
      ∃ kvs, st.extracted = some (.obj kvs) ∧
        isNotNull (Json.lookup kvs "location") = false) :
    should_dispatch st = .ok "wait_for_info" := by
  unfold should_dispatch
  rw [if_neg (by simp [hic])]
  rcases hloc with h | ⟨kvs, h, hn⟩ <;> rw [h]
  · rfl
  · simp only [Option.getD_some]
    rw [hn]
    rfl

/-- The state of the spec's own P1 test vector: severity `"P1"`,
incident type `"cardiac arrest"`, `info_complete` false, and a null
`extracted.location`. -/
def p1CounterState : DispatcherState :=
  { transcript := "caller reports cardiac arrest",
    extracted := some (.obj [("location", .null)]),
    incident_type := some (.str "cardiac arrest"),
    severity := some (.str "P1"),
    info_complete := some (.bool false) }

/-- C1 counterexample: on the claimed input — severity `"P1"`, known
incident type, `info_complete` false, `extracted.location` null — the
routing function selects `"wait_for_info"`, not `"dispatch_planner"`:
`should_dispatch` never consults `severity`, so no P1/P2 bypass of the
completeness gate exists in the code. -/
theorem c1_counterexample :
    p1CounterState.severity = some (.str "P1") ∧
    p1CounterState.incident_type = some (.str "cardiac arrest") ∧
    p1CounterState.info_complete = some (.bool false) ∧
    p1CounterState.extracted = some (.obj [("location", .null)]) ∧
    should_dispatch p1CounterState = .ok "wait_for_info" ∧
    ("wait_for_info" : String) ≠ "dispatch_planner" :=
  ⟨rfl, rfl, rfl, rfl, rfl, by decide⟩

/-- C1 amended: the branch ignores severity entirely.  For every run
state with falsy `info_complete` and a null or absent
`extracted.location` — whatever `severity` and `incident_type` hold,
including the claimed P1/"cardiac arrest" case — the branch selects
Wait-For-Info; the dispatch path requires a truthy `info_complete` or a
non-null location. -/
theorem c1_amended (st : DispatcherState)
    (hic : ((st.info_complete).getD (.bool false)).truthy = false)
    (hloc : st.extracted = none ∨
      ∃ kvs, st.extracted = some (.obj kvs) ∧
        isNotNull (Json.lookup kvs "location") = false) :
    should_dispatch st = .ok "wait_for_info" :=
  route_wait_of_no_info st hic hloc

/-- C1 witness: the amended statement evaluated on the spec's P1 test
vector. -/
theorem c1_amended_witness :
    should_dispatch p1CounterState = .ok "wait_for_info" :=
  c1_amended p1CounterState rfl (.inr ⟨[("location", Json.null)], rfl, rfl⟩)

/-- C10: the triage guard's default incident type
`"unknown - processing error"` passes the branch's known-incident test,
which compares against the exact string `"unknown"` (and falsiness)
only.  Whenever the triage body raises, the guarded stage writes that
default; and every state carrying it whose `extracted.location` is
non-null routes to the dispatch path — regardless of `info_complete` —
even though triage actually failed. -/
theorem c10_failed_triage_routes_to_dispatch :
    (∀ (L : JsonLib) (o : Oracle) (st : DispatcherState) (e : PyExc),
        triage_body L o st = .error e →
        (triage_agent L o st).incident_type = some (.str "unknown - processing error")) ∧
    (∀ (st : DispatcherState) (kvs : List (String × Json)),
        st.extracted = some (.obj kvs) →
        isNotNull (Json.lookup kvs "location") = true →
        st.incident_type = some (.str "unknown - processing error") →
        should_dispatch st = .ok "dispatch_planner") := by
  constructor
  · intro L o st e h
    unfold triage_agent with_error_handling
    rw [h]
    rfl
  · intro st kvs hext hn hit
    unfold should_dispatch
    by_cases hic : ((st.info_complete).getD (Json.bool false)).truthy
    · rw [if_pos hic]
    · rw [if_neg hic, hext]
      simp only [Option.getD_some]
      rw [hit, hn]
      simp only [Option.getD_some]
      rw [if_pos (by decide)]

/-- A run environment with no `GROQ_API_KEY`, so every `get_model`
call raises `ValueError`. -/
def noKeyOracle : Oracle :=
  { groq_api_key := none, extraction := .ok "", triage := .ok "",
    next_question := .ok "", dispatch_planner := .ok "", safety_guardrail := .ok "" }

/-- A parser stub that finds structure in no text. -/
def Lnone : JsonLib := ⟨fun _ => none⟩

/-- A state in which triage's guard already fired (its default incident
type is in place) and extraction found a location. -/
def failedTriageState : DispatcherState :=
  { transcript := "t",
    extracted := some (.obj [("location", .str "5th and Main")]),
    incident_type := some (.str "unknown - processing error") }

/-- C10 witness: both parts evaluated concretely — a missing API key
makes the triage body raise and the guard write the sentinel default,
and a state with that default plus a non-null location routes to the
dispatch planner. -/
theorem c10_witness :
    (triage_agent Lnone noKeyOracle (initState "t")).incident_type =
      some (.str "unknown - processing error") ∧
    should_dispatch failedTriageState = .ok "dispatch_planner" :=
  ⟨c10_failed_triage_routes_to_dispatch.1 Lnone noKeyOracle (initState "t")
      (.valueErr "GROQ_API_KEY not found. Please set it in backend/.env") rfl,
    c10_failed_triage_routes_to_dispatch.2 failedTriageState
      [("location", Json.str "5th and Main")] rfl rfl rfl⟩

/-- C4: with severity P3/P4/null/absent, `info_complete` false, and a
null-or-absent `extracted.location`, the branch selects the
Wait-For-Info terminal, whose output is exactly the sentinel: a
dispatch_recommendation with status `"pending_info"`, all resources
`"no"`, null priority and `needs_more_info` true; an empty
`nearest_resources` list; and a validated_output with `is_valid` false
and status `"pending_info"`. -/
theorem c4_wait_for_info_sentinel (st : DispatcherState)
    (_hsev : st.severity = some (.str "P3") ∨ st.severity = some (.str "P4") ∨
      st.severity = some .null ∨ st.severity = none)
    (hic : st.info_complete = some (.bool false))
    (hloc : st.extracted = none ∨
      ∃ kvs, st.extracted = some (.obj kvs) ∧
        isNotNull (Json.lookup kvs "location") = false) :
    should_dispatch st = .ok "wait_for_info" ∧
    wait_for_info_node st =
      { dispatch_recommendation := some (.obj [
          ("status", .str "pending_info"),
          ("resources", .obj [("ems", .str "no"), ("fire", .str "no"), ("police", .str "no")]),
          ("priority", .null),
          ("rationale", .str "Waiting for more information before making dispatch recommendation"),
          ("special_units", .arr []),
          ("needs_more_info", .bool true)]),
        nearest_resources := some (.arr []),
        validated_output := some (.obj [
          ("is_valid", .bool false),
          ("status", .str "pending_info"),
          ("message", .str "More information needed before dispatch recommendation"),
          ("blocked", .bool false)]) } ∧
    (∀ drec, (wait_for_info_node st).dispatch_recommendation = some drec →
      Json.getD drec "status" .null = .str "pending_info" ∧
      Json.getD drec "priority" (.str "absent") = .null ∧
      Json.getD drec "needs_more_info" .null = .bool true) ∧
    (∀ vout, (wait_for_info_node st).validated_output = some vout →
      Json.getD vout "is_valid" .null = .bool false ∧
      Json.getD vout "status" .null = .str "pending_info") := by
  refine ⟨route_wait_of_no_info st (by rw [hic]; rfl) hloc, rfl, ?_, ?_⟩
  · intro drec h
    cases h
    exact ⟨rfl, rfl, rfl⟩
  · intro vout h
    cases h
    exact ⟨rfl, rfl⟩

/-- A concrete C4 state: severity P3, incomplete info, no location. -/
def p3WaitState : DispatcherState :=
  { transcript := "something happened",
    extracted := some (.obj [("location", .null)]),
    incident_type := some (.str "unclear disturbance"),
    severity := some (.str "P3"),
    info_complete := some (.bool false) }

/-- C4 witness: the theorem evaluated on a concrete P3 state. -/
theorem c4_witness :
    should_dispatch p3WaitState = .ok "wait_for_info" ∧
    (wait_for_info_node p3WaitState).nearest_resources = some (.arr []) :=
  ⟨(c4_wait_for_info_sentinel p3WaitState (.inl rfl) rfl
      (.inr ⟨[("location", Json.null)], rfl, rfl⟩)).1,
    by rfl⟩

/-- C5: structured-output extraction follows exactly the documented
order and, being a total function into `Option`, never raises.  (1) If
the stripped text parses directly, that parse is the result.  (2) If
the direct parse fails and a `\x7b` occurs before a later `\x7d`, the
result is whatever parsing the substring from the first `\x7b` to the
last `\x7d` inclusive yields (its own failure yields `none`, not an
exception).  (3) If the direct parse fails and no such span exists, the
result is the "no structured result" value `none`. -/
theorem c5_safe_json_parse_order (L : JsonLib) (c : String) :
    (∀ j, L.loads (pstrip c) = some j → safe_json_parse L c = some j) ∧
    (∀ s e, L.loads (pstrip c) = none → pyFind (pstrip c) '{' = some s →
      pyRfind (pstrip c) '}' = some e → s < e →
      safe_json_parse L c = L.loads (pySlice (pstrip c) s (e + 1))) ∧
    (L.loads (pstrip c) = none →
      (∀ s e, pyFind (pstrip c) '{' = some s → pyRfind (pstrip c) '}' = some e →
        s < e → False) →
      safe_json_parse L c = none) := by
  refine ⟨?_, ?_, ?_⟩
  · intro j h
    unfold safe_json_parse
    dsimp only
    rw [h]
  · intro s e h hf hr hlt
    unfold safe_json_parse
    dsimp only
    rw [h, hf, hr]
    dsimp only
    rw [if_pos hlt]
  · intro h hno
    unfold safe_json_parse
    dsimp only
    rw [h]
    cases hf : pyFind (pstrip c) '{' with
    | none => rfl
    | some s =>
      cases hr : pyRfind (pstrip c) '}' with
      | none => rfl
      | some e =>
        dsimp only
        rw [if_neg (fun hlt => hno s e hf hr hlt)]

/-- A parser stub recognising exactly the text `"\x7b\x7d"`. -/
def LBrace : JsonLib :=
  ⟨fun s => if s = "\x7b\x7d" then some (.obj []) else none⟩

/-- C5 witness: the first clause evaluated concretely — stripping
`"  \x7b\x7d "` and parsing directly succeeds, and `safe_json_parse`
returns that value. -/
theorem c5_witness :
    LBrace.loads (pstrip "  \x7b\x7d ") = some (.obj []) ∧
    safe_json_parse LBrace "  \x7b\x7d " = some (.obj []) :=
  ⟨rfl, (c5_safe_json_parse_order LBrace "  \x7b\x7d ").1 (.obj []) rfl⟩

/-- A successful extraction body carries no `_error` marker. -/
theorem extraction_body_ok_err (L : JsonLib) (o : Oracle) (st : DispatcherState)
    (u : Update) (h : extraction_body L o st = .ok u) : u.err = none := by
  rcases extraction_body_spec L o st with ⟨e, h2⟩ | ⟨kvs, h2⟩ <;> rw [h2] at h
  · exact Except.noConfusion h
  · injection h with h
    subst h
    rfl

/-- A successful triage body carries no `_error` marker. -/
theorem triage_body_ok_err (L : JsonLib) (o : Oracle) (st : DispatcherState)
    (u : Update) (h : triage_body L o st = .ok u) : u.err = none := by
  rcases triage_body_spec L o st with ⟨e, h2⟩ | ⟨u2, h2, _, h3, _⟩ <;> rw [h2] at h
  · exact Except.noConfusion h
  · injection h with h
    subst h
    exact h3

/-- A successful next-question body carries no `_error` marker. -/
theorem next_question_body_ok_err (L : JsonLib) (o : Oracle) (st : DispatcherState)
    (u : Update) (h : next_question_body L o st = .ok u) : u.err = none := by
  rcases next_question_body_spec L o st with ⟨e, h2⟩ | ⟨u2, h2, _, h3, _⟩ <;> rw [h2] at h
  · exact Except.noConfusion h
  · injection h with h
    subst h
    exact h3

/-- A successful dispatch-planner body carries no `_error` marker. -/
theorem dispatch_planner_body_ok_err (L : JsonLib) (o : Oracle) (st : DispatcherState)
    (u : Update) (h : dispatch_planner_body L o st = .ok u) : u.err = none := by
  rcases dispatch_planner_body_spec L o st with ⟨e, h2⟩ | ⟨u2, h2, _, h3, _⟩ <;> rw [h2] at h
  · exact Except.noConfusion h
  · injection h with h
    subst h
    exact h3

/-- A successful resource-locator body carries no `_error` marker. -/
theorem resource_locator_body_ok_err (st : DispatcherState)
    (u : Update) (h : resource_locator_body st = .ok u) : u.err = none := by
  rcases resource_locator_body_spec st with ⟨e, h2⟩ | ⟨u2, h2, _, h3, _⟩ <;> rw [h2] at h
  · exact Except.noConfusion h
  · injection h with h
    subst h
    exact h3

/-- A successful safety-guardrail body carries no `_error` marker. -/
theorem safety_guardrail_body_ok_err (L : JsonLib) (o : Oracle) (st : DispatcherState)
    (u : Update) (h : safety_guardrail_body L o st = .ok u) : u.err = none := by
  rcases safety_guardrail_body_spec L o st with ⟨e, h2⟩ | ⟨u2, h2, _, h3, _⟩ <;> rw [h2] at h
  · exact Except.noConfusion h
  · injection h with h
    subst h
    exact h3

/-- C2: the error guard never propagates a failure.  On any raised
exception — parse, configuration, connectivity, or other — it returns
the stage's declared default merged with an `_error` marker whose text
is non-empty and starts with the failure-class label; on success it
returns the stage's own output unchanged, and no stage body ever puts a
marker in a successful output (so non-failing stages are unmarked).
Under every oracle — including one where every external call fails —
the run still reaches a terminal stage along one of the two declared
stage orders. -/
theorem c2_error_guard_isolation :
    (∀ (d : Update) (f : DispatcherState → Except PyExc Update)
        (st : DispatcherState) (e : PyExc),
        f st = .error e →
          with_error_handling d f st = { d with err := some (describe e) } ∧
          describe e ≠ "" ∧ ∃ rest, describe e = classLabel e ++ rest) ∧
    (∀ (d : Update) (f : DispatcherState → Except PyExc Update)
        (st : DispatcherState) (u : Update),
        f st = .ok u → with_error_handling d f st = u) ∧
    (∀ (L : JsonLib) (o : Oracle) (st : DispatcherState) (u : Update),
        extraction_body L o st = .ok u → u.err = none) ∧
    (∀ (L : JsonLib) (o : Oracle) (st : DispatcherState) (u : Update),
        triage_body L o st = .ok u → u.err = none) ∧
    (∀ (L : JsonLib) (o : Oracle) (st : DispatcherState) (u : Update),
        next_question_body L o st = .ok u → u.err = none) ∧
    (∀ (L : JsonLib) (o : Oracle) (st : DispatcherState) (u : Update),
        dispatch_planner_body L o st = .ok u → u.err = none) ∧
    (∀ (L : JsonLib) (o : Oracle) (st : DispatcherState) (u : Update),
        safety_guardrail_body L o st = .ok u → u.err = none) ∧
    (∀ (st : DispatcherState) (u : Update),
        resource_locator_body st = .ok u → u.err = none) ∧
    (∀ st : DispatcherState, (wait_for_info_node st).err = none) ∧
    (∀ (L : JsonLib) (o : Oracle) (t : String),
        ∃ fin trace, runPipeline L o t = .ok (fin, trace) ∧
          (trace.map Prod.fst = ["extraction", "triage", "next_question",
              "dispatch_planner", "resource_locator", "safety_guardrail"] ∨
            trace.map Prod.fst = ["extraction", "triage", "next_question",
              "wait_for_info"])) := by
  refine ⟨?_, ?_, extraction_body_ok_err, triage_body_ok_err, next_question_body_ok_err,
      dispatch_planner_body_ok_err, safety_guardrail_body_ok_err,
      resource_locator_body_ok_err, fun _ => rfl, ?_⟩
  · intro d f st e h
    unfold with_error_handling
    rw [h]
    refine ⟨rfl, ?_, ?_⟩
    · intro heq
      have hlen := congrArg String.length heq
      cases e <;> simp [describe, String.length_append] at hlen <;>
        exact absurd hlen.1 (by decide)
    · cases e with
      | jsonDecode m => exact ⟨": " ++ m, rfl⟩
      | valueErr m => exact ⟨": " ++ m, rfl⟩
      | connErr m => exact ⟨": " ++ m, rfl⟩
      | other m => exact ⟨": " ++ m, rfl⟩
  · intro d f st u h
    unfold with_error_handling
    rw [h]
  · intro L o t
    obtain ⟨fin, tr, h1, h2, -⟩ := runPipeline_ok L o t
    exact ⟨fin, tr, h1, h2⟩

/-- C2 witness: the guard evaluated on a concrete raising stage — a
connectivity failure yields the declared default plus the non-empty
class-labelled marker. -/
theorem c2_witness :
    with_error_handling resource_locator_default
        (fun _ => .error (.connErr "connection refused")) (initState "x") =
      { resource_locator_default with err := some "Connection error: connection refused" } ∧
    ("Connection error: connection refused" : String) ≠ "" :=
  have h := c2_error_guard_isolation.1 resource_locator_default
      (fun _ => .error (.connErr "connection refused")) (initState "x")
      (.connErr "connection refused") rfl
  ⟨h.1, h.2.1⟩

/-- C3: for every non-empty transcript (and every behaviour of the
external service and parser), the synchronous run terminates in a
terminal stage and the final Shared Run State carries all ten
reachable data-model fields — `extracted`, `incident_type`, `severity`,
`key_risks`, `missing_info`, `suggested_questions`, `info_complete`,
`dispatch_recommendation`, `nearest_resources`, `validated_output` —
each present with a real or default value, on both branches. -/
theorem c3_all_fields_present (L : JsonLib) (o : Oracle) (t : String) (_ht : t ≠ "") :
    ∃ fin trace, runPipeline L o t = .ok (fin, trace) ∧
      fin.extracted.isSome ∧ fin.incident_type.isSome ∧ fin.severity.isSome ∧
      fin.key_risks.isSome ∧ fin.missing_info.isSome ∧ fin.suggested_questions.isSome ∧
      fin.info_complete.isSome ∧ fin.dispatch_recommendation.isSome ∧
      fin.nearest_resources.isSome ∧ fin.validated_output.isSome := by
  obtain ⟨fin, tr, h1, -, hs⟩ := runPipeline_ok L o t
  exact ⟨fin, tr, h1, hs⟩

/-- C3 witness: evaluated with a concrete transcript under an oracle
where every external call fails. -/
theorem c3_witness :
    ("help" : String) ≠ "" ∧
    ∃ fin trace, runPipeline Lnone noKeyOracle "help" = .ok (fin, trace) ∧
      fin.extracted.isSome ∧ fin.incident_type.isSome ∧ fin.severity.isSome ∧
      fin.key_risks.isSome ∧ fin.missing_info.isSome ∧ fin.suggested_questions.isSome ∧
      fin.info_complete.isSome ∧ fin.dispatch_recommendation.isSome ∧
      fin.nearest_resources.isSome ∧ fin.validated_output.isSome :=
  ⟨by decide, c3_all_fields_present Lnone noKeyOracle "help" (by decide)⟩

/-- C9: the pipeline is a pure function of the transcript and the
(mocked, deterministic) external-service behaviour: identical inputs
give identical final states and stage traces — the pipeline itself
introduces no nondeterminism. -/
theorem c9_deterministic (L : JsonLib) (o o2 : Oracle) (t t2 : String)
    (ho : o = o2) (ht : t = t2) :
    runPipeline L o t = runPipeline L o2 t2 := by
  rw [ho, ht]

/-- C9 witness: two runs on the same concrete transcript and oracle. -/
theorem c9_witness :
    runPipeline Lnone noKeyOracle "call" = runPipeline Lnone noKeyOracle "call" :=
  c9_deterministic Lnone noKeyOracle noKeyOracle "call" "call" rfl rfl

/-- Evaluation of the guarded resource locator when the recommendation
and the extraction are dicts: the stage output is the located list built
from the wish-list and `extracted.location` (absent key → sentinel). -/
theorem resource_locator_agent_eval_obj (st : DispatcherState)
    (drec ekvs : List (String × Json)) (entries : List Json)
    (hd : st.dispatch_recommendation = some (.obj drec))
    (he : st.extracted = some (.obj ekvs))
    (hl : locateResources ((Json.lookup drec "resources").getD (.obj []))
        ((Json.lookup ekvs "location").getD (.str "Unknown location")) = .ok entries) :
    resource_locator_agent st = { nearest_resources := some (.arr entries) } := by
  unfold resource_locator_agent with_error_handling resource_locator_body
  rw [hd, he]
  simp only [Option.getD_some, Bind.bind, Except.bind]
  rw [hl]

/-- Same, when `extracted` is absent: the destination falls back to the
`"Unknown location"` sentinel. -/
theorem resource_locator_agent_eval_noext (st : DispatcherState)
    (drec : List (String × Json)) (entries : List Json)
    (hd : st.dispatch_recommendation = some (.obj drec))
    (he : st.extracted = none)
    (hl : locateResources ((Json.lookup drec "resources").getD (.obj []))
        (.str "Unknown location") = .ok entries) :
    resource_locator_agent st = { nearest_resources := some (.arr entries) } := by
  unfold resource_locator_agent with_error_handling resource_locator_body
  rw [hd, he]
  simp only [Option.getD_some, Option.getD_none, Bind.bind, Except.bind]
  rw [show Json.lookup ([] : List (String × Json)) "location" = none from rfl,
    Option.getD_none]
  rw [hl]

/-- Every entry emitted by the dict-shaped wish-list loop comes from a
requested category mapped to `"yes"` whose lowercased name is in the
table, and is the first table record for it: unrecognised categories
emit nothing. -/
theorem locateFromDict_mem (kvs : List (String × Json)) (loc j : Json)
    (h : j ∈ locateFromDict kvs loc) :
    ∃ cat needed r rs, (cat, needed) ∈ kvs ∧ needed.eqStr "yes" = true ∧
      dbLookup (pyLower cat) = some (r :: rs) ∧ j = mkEntry cat r loc := by
  induction kvs with
  | nil => simp [locateFromDict] at h
  | cons p rest ih =>
    obtain ⟨cat, needed⟩ := p
    simp only [locateFromDict] at h
    rcases List.mem_append.mp h with h1 | h2
    · by_cases hy : needed.eqStr "yes"
      case pos =>
        rw [if_pos hy] at h1
        cases hdb : dbLookup (pyLower cat) with
        | none => rw [hdb] at h1; simp at h1
        | some l =>
          cases l with
          | nil => rw [hdb] at h1; simp at h1
          | cons r rs =>
            rw [hdb] at h1
            simp only [List.mem_singleton] at h1
            exact ⟨cat, needed, r, rs, List.mem_cons_self _ _, hy, hdb, h1⟩
      case neg =>
        rw [if_neg hy] at h1
        simp at h1
    · obtain ⟨cat2, needed2, r, rs, hmem, hy, hdb, hj⟩ := ih h2
      exact ⟨cat2, needed2, r, rs, List.mem_cons_of_mem _ hmem, hy, hdb, hj⟩

/-- The list-shaped wish-list loop succeeds on every list of category
names, and each emitted entry comes from a requested name whose
lowercased form is in the table, carrying the first record for it. -/
theorem locateFromList_spec (items : List Json) (loc : Json)
    (hstr : ∀ j ∈ items, ∃ s, j = Json.str s) :
    ∃ entries, locateFromList items loc = .ok entries ∧
      ∀ j ∈ entries, ∃ cat r rs, Json.str cat ∈ items ∧
        dbLookup (pyLower cat) = some (r :: rs) ∧ j = mkEntry cat r loc := by
  induction items with
  | nil => exact ⟨[], rfl, by simp⟩
  | cons a rest ih =>
    obtain ⟨s, rfl⟩ := hstr a (List.mem_cons_self _ _)
    obtain ⟨tail, htail, hmem⟩ := ih (fun j hj => hstr j (List.mem_cons_of_mem _ hj))
    unfold locateFromList
    simp only [Bind.bind, Except.bind]
    rw [htail]
    cases hdb : dbLookup (pyLower s) with
    | none =>
      refine ⟨tail, rfl, fun j hj => ?_⟩
      obtain ⟨cat, r, rs, hm, hdb2, hjv⟩ := hmem j hj
      exact ⟨cat, r, rs, List.mem_cons_of_mem _ hm, hdb2, hjv⟩
    | some l =>
      cases l with
      | nil =>
        refine ⟨tail, rfl, fun j hj => ?_⟩
        obtain ⟨cat, r, rs, hm, hdb2, hjv⟩ := hmem j hj
        exact ⟨cat, r, rs, List.mem_cons_of_mem _ hm, hdb2, hjv⟩
      | cons r rs =>
        refine ⟨mkEntry s r loc :: tail, rfl, fun j hj => ?_⟩
        rcases List.mem_cons.mp hj with hj | hj
        · exact ⟨s, r, rs, List.mem_cons_self _ _, hdb, hj⟩
        · obtain ⟨cat, r2, rs2, hm, hdb2, hjv⟩ := hmem j hj
          exact ⟨cat, r2, rs2, List.mem_cons_of_mem _ hm, hdb2, hjv⟩

/-- A state matching C6's scenario, with the location key present but
null: the wish-list is exactly
`\x7b"ems": "yes", "fire": "no", "police": "yes"\x7d`. -/
def emsPoliceState : DispatcherState :=
  { transcript := "t",
    extracted := some (.obj [("location", .null)]),
    dispatch_recommendation := some (.obj [("resources",
      .obj [("ems", .str "yes"), ("fire", .str "no"), ("police", .str "yes")])]) }

/-- C6 counterexample: with `extracted.location` present but null, the
two located entries carry destination `null` — not the
`"Unknown location"` sentinel the claim requires for a non-"present and
non-null" location.  (`d.get("location", "Unknown location")` only
falls back when the key is absent.) -/
theorem c6_counterexample :
    emsPoliceState.extracted = some (.obj [("location", .null)]) ∧
    resource_locator_agent emsPoliceState =
      { nearest_resources := some (.arr
          [mkEntry "ems" ⟨"Medic Unit 7", "Station 7", 6/5, 4⟩ .null,
           mkEntry "police" ⟨"Unit 42", "Patrol Zone 4", 1/2, 2⟩ .null]) } ∧
    Json.getD (mkEntry "ems" ⟨"Medic Unit 7", "Station 7", 6/5, 4⟩ .null)
      "destination" (.str "missing") = Json.null ∧
    Json.null ≠ Json.str "Unknown location" :=
  ⟨rfl, by rfl, rfl, fun h => Json.noConfusion h⟩

/-- C6 amended: on the wish-list
`\x7b"ems": "yes", "fire": "no", "police": "yes"\x7d` the locator emits
exactly two entries — `"ems"` and `"police"` uppercased to `"EMS"` and
`"POLICE"`, each carrying the first fixed-table record for its category
— and each destination equals `extracted.location` whenever the
`location` key is present (null included); the `"Unknown location"`
sentinel is used only when the key or the whole `extracted` dict is
absent. -/
theorem c6_amended :
    (∀ (st : DispatcherState) (drec : List (String × Json)),
      st.dispatch_recommendation = some (.obj drec) →
      Json.lookup drec "resources" = some (.obj
        [("ems", .str "yes"), ("fire", .str "no"), ("police", .str "yes")]) →
      st.extracted = none →
      resource_locator_agent st = { nearest_resources := some (.arr
        [mkEntry "ems" ⟨"Medic Unit 7", "Station 7", 6/5, 4⟩ (.str "Unknown location"),
         mkEntry "police" ⟨"Unit 42", "Patrol Zone 4", 1/2, 2⟩ (.str "Unknown location")]) }) ∧
    (∀ (st : DispatcherState) (drec ekvs : List (String × Json)),
      st.dispatch_recommendation = some (.obj drec) →
      Json.lookup drec "resources" = some (.obj
        [("ems", .str "yes"), ("fire", .str "no"), ("police", .str "yes")]) →
      st.extracted = some (.obj ekvs) →
      resource_locator_agent st = { nearest_resources := some (.arr
        [mkEntry "ems" ⟨"Medic Unit 7", "Station 7", 6/5, 4⟩
            ((Json.lookup ekvs "location").getD (.str "Unknown location")),
         mkEntry "police" ⟨"Unit 42", "Patrol Zone 4", 1/2, 2⟩
            ((Json.lookup ekvs "location").getD (.str "Unknown location"))]) }) ∧
    Json.getD (mkEntry "ems" ⟨"Medic Unit 7", "Station 7", 6/5, 4⟩ .null) "type" .null =
      .str "EMS" ∧
    Json.getD (mkEntry "police" ⟨"Unit 42", "Patrol Zone 4", 1/2, 2⟩ .null) "type" .null =
      .str "POLICE" := by
  refine ⟨?_, ?_, rfl, rfl⟩
  · intro st drec hd hres he
    refine resource_locator_agent_eval_noext st drec _ hd he ?_
    rw [hres]
    rfl
  · intro st drec ekvs hd hres he
    refine resource_locator_agent_eval_obj st drec ekvs _ hd he ?_
    rw [hres]
    rfl

/-- C6 witness: the amended statement evaluated on the concrete
null-location state. -/
theorem c6_witness :
    resource_locator_agent emsPoliceState = { nearest_resources := some (.arr
      [mkEntry "ems" ⟨"Medic Unit 7", "Station 7", 6/5, 4⟩
          ((Json.lookup [("location", Json.null)] "location").getD (.str "Unknown location")),
       mkEntry "police" ⟨"Unit 42", "Patrol Zone 4", 1/2, 2⟩
          ((Json.lookup [("location", Json.null)] "location").getD (.str "Unknown location"))]) } :=
  c6_amended.2.1 emsPoliceState
    [("resources", .obj [("ems", .str "yes"), ("fire", .str "no"), ("police", .str "yes")])]
    [("location", Json.null)] rfl rfl rfl

/-- C7: the locator accepts both wish-list shapes.  For a dict
wish-list, every emitted entry traces back to a requested category
mapped to `"yes"` whose lowercased name is in the fixed table (so an
unrecognised category is silently skipped, with no error marker and no
raised exception), and an empty dict yields the empty list.  The same
holds for a list wish-list of category names, with an empty list
yielding the empty list. -/
theorem c7_wishlist_shapes :
    (∀ (st : DispatcherState) (drec ekvs kvs : List (String × Json)),
      st.dispatch_recommendation = some (.obj drec) →
      st.extracted = some (.obj ekvs) →
      (Json.lookup drec "resources").getD (.obj []) = .obj kvs →
      ∃ entries, resource_locator_agent st =
          { nearest_resources := some (.arr entries) } ∧
        (resource_locator_agent st).err = none ∧
        (∀ j ∈ entries, ∃ cat needed r rs, (cat, needed) ∈ kvs ∧
          needed.eqStr "yes" = true ∧ dbLookup (pyLower cat) = some (r :: rs) ∧
          j = mkEntry cat r ((Json.lookup ekvs "location").getD (.str "Unknown location"))) ∧
        (kvs = [] → entries = [])) ∧
    (∀ (st : DispatcherState) (drec ekvs : List (String × Json)) (items : List Json),
      st.dispatch_recommendation = some (.obj drec) →
      st.extracted = some (.obj ekvs) →
      (Json.lookup drec "resources").getD (.obj []) = .arr items →
      (∀ j ∈ items, ∃ s, j = Json.str s) →
      ∃ entries, resource_locator_agent st =
          { nearest_resources := some (.arr entries) } ∧
        (resource_locator_agent st).err = none ∧
        (∀ j ∈ entries, ∃ cat r rs, Json.str cat ∈ items ∧
          dbLookup (pyLower cat) = some (r :: rs) ∧
          j = mkEntry cat r ((Json.lookup ekvs "location").getD (.str "Unknown location"))) ∧
        (items = [] → entries = [])) := by
  constructor
  · intro st drec ekvs kvs hd he hres
    have hagent : resource_locator_agent st = { nearest_resources := some (.arr
        (locateFromDict kvs ((Json.lookup ekvs "location").getD (.str "Unknown location")))) } := by
      refine resource_locator_agent_eval_obj st drec ekvs _ hd he ?_
      rw [hres]
      rfl
    refine ⟨_, hagent, by rw [hagent], fun j hj => locateFromDict_mem kvs _ j hj, ?_⟩
    rintro rfl
    rfl
  · intro st drec ekvs items hd he hres hstr
    obtain ⟨entries, hloc, hmem⟩ :=
      locateFromList_spec items ((Json.lookup ekvs "location").getD (.str "Unknown location")) hstr
    have hagent : resource_locator_agent st =
        { nearest_resources := some (.arr entries) } := by
      refine resource_locator_agent_eval_obj st drec ekvs _ hd he ?_
      rw [hres]
      exact hloc
    refine ⟨entries, hagent, by rw [hagent], hmem, ?_⟩
    rintro rfl
    cases hloc
    rfl

/-- A state whose wish-list requests an unrecognised category alongside
a recognised one, in list shape. -/
def helicopterState : DispatcherState :=
  { transcript := "t",
    extracted := some (.obj []),
    dispatch_recommendation := some (.obj [("resources",
      .arr [.str "HELICOPTER", .str "EMS"])]) }

/-- C7 witness: the list-shape clause evaluated concretely — the
unrecognised `"HELICOPTER"` yields no entry and no failure. -/
theorem c7_witness :
    ∃ entries, resource_locator_agent helicopterState =
        { nearest_resources := some (.arr entries) } ∧
      (resource_locator_agent helicopterState).err = none ∧
      (∀ j ∈ entries, ∃ cat r rs, Json.str cat ∈ [Json.str "HELICOPTER", Json.str "EMS"] ∧
        dbLookup (pyLower cat) = some (r :: rs) ∧
        j = mkEntry cat r ((Json.lookup [] "location").getD (.str "Unknown location"))) ∧
      ([Json.str "HELICOPTER", Json.str "EMS"] = ([] : List Json) → entries = []) :=
  c7_wishlist_shapes.2 helicopterState
    [("resources", .arr [.str "HELICOPTER", .str "EMS"])] [] [.str "HELICOPTER", .str "EMS"]
    rfl rfl rfl
    (by intro j hj
        rcases List.mem_cons.mp hj with h | h
        · exact ⟨"HELICOPTER", h⟩
        · rcases List.mem_cons.mp h with h2 | h2
          · exact ⟨"EMS", h2⟩
          · exact absurd h2 (List.not_mem_nil j))

/-- C8: whenever the safety guardrail's own parse of the external
response yields no structured result, the stage returns a
validated_output that passes the current dispatch_recommendation
through unsanitised with `is_valid` true and `blocked` false, plus the
manual-review flag — the guardrail's own failure never blocks the
output. -/
theorem c8_guardrail_parse_fail_passthrough (L : JsonLib) (o : Oracle)
    (st : DispatcherState) (content : String)
    (hkey : get_model o = .ok ())
    (hjoin : joinOk ((st.key_risks).getD (.arr [])) = true)
    (hc : o.safety_guardrail = .ok content)
    (hp : safe_json_parse L content = none) :
    safety_guardrail_agent L o st =
      { validated_output := some (.obj [
          ("is_valid", .bool true),
          ("sanitized_recommendation", (st.dispatch_recommendation).getD (.obj [])),
          ("flags", .arr [.str "Guardrail parsing failed - review manually"]),
          ("blocked", .bool false),
          ("block_reason", .null)]) } ∧
    (∀ vout, (safety_guardrail_agent L o st).validated_output = some vout →
      Json.getD vout "is_valid" .null = .bool true ∧
      Json.getD vout "blocked" (.str "absent") = .bool false ∧
      Json.getD vout "sanitized_recommendation" .null =
        (st.dispatch_recommendation).getD (.obj [])) := by
  have hmain : safety_guardrail_agent L o st =
      { validated_output := some (.obj [
          ("is_valid", .bool true),
          ("sanitized_recommendation", (st.dispatch_recommendation).getD (.obj [])),
          ("flags", .arr [.str "Guardrail parsing failed - review manually"]),
          ("blocked", .bool false),
          ("block_reason", .null)]) } := by
    unfold safety_guardrail_agent with_error_handling safety_guardrail_body
    rw [hkey]
    simp only [Bind.bind, Except.bind]
    rw [hjoin]
    simp only [Bool.not_true]
    rw [if_neg (by decide : ¬(false = true))]
    rw [hc]
    simp only [Except.bind]
    rw [hp]
  refine ⟨hmain, fun vout hv => ?_⟩
  rw [hmain] at hv
  injection hv with hv
  subst hv
  exact ⟨rfl, rfl, rfl⟩

/-- An oracle whose guardrail call returns prose with no JSON in it. -/
def proseOracle : Oracle :=
  { groq_api_key := some "k", extraction := .ok "", triage := .ok "",
    next_question := .ok "", dispatch_planner := .ok "",
    safety_guardrail := .ok "no structured output here" }

/-- A state carrying a dispatch recommendation for the guardrail to
pass through. -/
def recState : DispatcherState :=
  { transcript := "t",
    dispatch_recommendation := some (.obj [("resources",
      .obj [("ems", .str "yes")])]) }

/-- C8 witness: the theorem evaluated concretely — a prose response
parses to nothing and the unsanitised recommendation passes through
unblocked. -/
theorem c8_witness :
    safe_json_parse Lnone "no structured output here" = none ∧
    safety_guardrail_agent Lnone proseOracle recState =
      { validated_output := some (.obj [
          ("is_valid", .bool true),
          ("sanitized_recommendation",
            (recState.dispatch_recommendation).getD (.obj [])),
          ("flags", .arr [.str "Guardrail parsing failed - review manually"]),
          ("blocked", .bool false),
          ("block_reason", .null)]) } :=
  ⟨rfl, (c8_guardrail_parse_fail_passthrough Lnone proseOracle recState
      "no structured output here" rfl rfl rfl rfl).1⟩
